import Mathlib

/-
Verification development for the blockade-rs client library.

The wire model (src/common.rs) is embedded as pure Lean functions: the
serde decoding of the enums and structs, including the panicking
`Stringify::from_str` token matches (a panic is modelled as `DOut.crash`,
distinct from a serde decode error `DOut.err`).

The handler (src/blockade.rs) is embedded with explicit state passing:
the HTTP transport is an oracle `env : Nat -> Response` giving the
response to the n-th request sent, and every operation returns an
`Outcome` carrying the result (or `none` for a process abort), the new
handler, the next response index, and the list of requests issued.
-/

set_option linter.unusedVariables false

namespace BlockadeRs

/-- JSON values: the parsed form of an HTTP response body. -/
inductive Json where
  | null
  | bool (b : Bool)
  | num (n : Int)
  | str (s : String)
  | arr (items : List Json)
  | obj (fields : List (String × Json))

/-- First value bound to a key in a JSON object's field list. -/
def jLookup (fields : List (String × Json)) (key : String) : Option Json :=
  match fields with
  | [] => none
  | (k, v) :: rest => if k = key then some v else jLookup rest key

/-- Outcome of a serde decode: success, a serde error (surfaced to the
caller as a decode error), or a process abort coming from the
panicking `Stringify::from_str` match in src/common.rs. -/
inductive DOut (α : Type) where
  | ok (a : α)
  | err (msg : String)
  | crash (msg : String)
deriving DecidableEq

def DOut.bind {α β : Type} : DOut α → (α → DOut β) → DOut β
  | DOut.ok a, f => f a
  | DOut.err m, _ => DOut.err m
  | DOut.crash m, _ => DOut.crash m

/-- src/common.rs `BlockadeCommand`. -/
inductive BlockadeCommand where
  | Start
  | Stop
  | Restart
  | Kill
deriving DecidableEq

/-- src/common.rs `impl Stringify for BlockadeCommand`, `to_str`. -/
def BlockadeCommand.to_str : BlockadeCommand → String
  | BlockadeCommand.Start => "start"
  | BlockadeCommand.Stop => "stop"
  | BlockadeCommand.Restart => "restart"
  | BlockadeCommand.Kill => "kill"

/-- src/common.rs `impl Stringify for BlockadeCommand`, `from_str`.
`none` models the `panic!("Unexpected enum input ...")` arm. -/
def BlockadeCommand.from_str (val : String) : Option BlockadeCommand :=
  if val = "start" then some BlockadeCommand.Start
  else if val = "stop" then some BlockadeCommand.Stop
  else if val = "restart" then some BlockadeCommand.Restart
  else if val = "kill" then some BlockadeCommand.Kill
  else none

/-- src/common.rs `BlockadeNetStatus`. -/
inductive BlockadeNetStatus where
  | Fast
  | Slow
  | Duplicate
  | Flaky
  | Unknown
deriving DecidableEq

/-- src/common.rs `impl Stringify for BlockadeNetStatus`, `to_str`. -/
def BlockadeNetStatus.to_str : BlockadeNetStatus → String
  | BlockadeNetStatus.Fast => "fast"
  | BlockadeNetStatus.Slow => "slow"
  | BlockadeNetStatus.Duplicate => "duplicate"
  | BlockadeNetStatus.Flaky => "flaky"
  | BlockadeNetStatus.Unknown => "unknown"

/-- src/common.rs `impl Stringify for BlockadeNetStatus`, `from_str`:
only the uppercase tokens are matched; `none` models the panic arm. -/
def BlockadeNetStatus.from_str (val : String) : Option BlockadeNetStatus :=
  if val = "NORMAL" then some BlockadeNetStatus.Fast
  else if val = "FAST" then some BlockadeNetStatus.Fast
  else if val = "SLOW" then some BlockadeNetStatus.Slow
  else if val = "DUPLICATE" then some BlockadeNetStatus.Duplicate
  else if val = "FLAKY" then some BlockadeNetStatus.Flaky
  else if val = "UNKNOWN" then some BlockadeNetStatus.Unknown
  else none

/-- src/common.rs `BlockadeContainerStatus`. -/
inductive BlockadeContainerStatus where
  | Up
  | Down
  | Missing
deriving DecidableEq

/-- src/common.rs `impl Stringify for BlockadeContainerStatus`, `to_str`. -/
def BlockadeContainerStatus.to_str : BlockadeContainerStatus → String
  | BlockadeContainerStatus.Up => "up"
  | BlockadeContainerStatus.Down => "down"
  | BlockadeContainerStatus.Missing => "missing"

/-- src/common.rs `impl Stringify for BlockadeContainerStatus`, `from_str`:
only the uppercase tokens are matched; `none` models the panic arm. -/
def BlockadeContainerStatus.from_str (val : String) : Option BlockadeContainerStatus :=
  if val = "UP" then some BlockadeContainerStatus.Up
  else if val = "DOWN" then some BlockadeContainerStatus.Down
  else if val = "MISSING" then some BlockadeContainerStatus.Missing
  else none

/-- `std::net::Ipv4Addr`, four octets. -/
structure Ipv4Addr where
  o1 : Nat
  o2 : Nat
  o3 : Nat
  o4 : Nat
deriving DecidableEq

/-- Split a character list into the groups between dots. -/
def splitOnDot : List Char → List (List Char)
  | [] => [[]]
  | c :: rest =>
    if c = '.' then [] :: splitOnDot rest
    else
      match splitOnDot rest with
      | [] => [[c]]
      | g :: gs => (c :: g) :: gs

def parseDigitsAux : List Char → Nat → Option Nat
  | [], acc => some acc
  | c :: rest, acc =>
    if c.isDigit then parseDigitsAux rest (acc * 10 + (c.toNat - 48))
    else none

/-- `u8::from_str` on one dotted-quad group: nonempty, digits only,
value at most 255. -/
def parse_octet (cs : List Char) : Option Nat :=
  match cs with
  | [] => none
  | _ :: _ =>
    match parseDigitsAux cs 0 with
    | some n => if n ≤ 255 then some n else none
    | none => none

/-- `Ipv4Addr`'s `FromStr`: dotted-quad string, each octet 0..=255. -/
def Ipv4Addr.parse (s : String) : Option Ipv4Addr :=
  match splitOnDot s.data with
  | [a, b, c, d] =>
    match parse_octet a, parse_octet b, parse_octet c, parse_octet d with
    | some x, some y, some z, some w => some ⟨x, y, z, w⟩
    | _, _, _, _ => none
  | _ => none

/-- src/common.rs `BlockadeContainer` (u16 values as Nat). -/
structure BlockadeContainer where
  image : String
  hostname : String
  volumes : List (String × String)
  expose : List Nat
  ports : List (Nat × Nat)
  links : List (String × String)
deriving DecidableEq

/-- src/common.rs `BlockadeNetConfig`. -/
structure BlockadeNetConfig where
  flaky : String
  slow : String
  driver : String
deriving DecidableEq

/-- src/common.rs `BlockadeConfig` (HashMap as association list). -/
structure BlockadeConfig where
  containers : List (String × BlockadeContainer)
  network : BlockadeNetConfig
deriving DecidableEq

/-- src/common.rs `BlockadeCommandArgs`. -/
structure BlockadeCommandArgs where
  command : BlockadeCommand
  container_names : List String
deriving DecidableEq

/-- src/common.rs `BlockadeNetArgs`. -/
structure BlockadeNetArgs where
  network_state : BlockadeNetStatus
  container_names : List String
deriving DecidableEq

/-- src/common.rs `BlockadePartitionArgs`. -/
structure BlockadePartitionArgs where
  partitions : List (List String)
deriving DecidableEq

/-- src/common.rs `BlockadeContainerState` (partition is `Option<u32>`). -/
structure BlockadeContainerState where
  container_id : String
  device : String
  ip_address : Ipv4Addr
  name : String
  network_state : BlockadeNetStatus
  partition : Option Nat
  status : BlockadeContainerStatus
deriving DecidableEq

/-- src/common.rs `BlockadeState` (HashMap as association list). -/
structure BlockadeState where
  containers : List (String × BlockadeContainerState)
deriving DecidableEq

/-- serde decode of a required `String` field: missing or non-string
(including null) is a decode error, as with the derived Deserialize. -/
def decodeStringField (fields : List (String × Json)) (key : String) : DOut String :=
  match jLookup fields key with
  | some (Json.str s) => DOut.ok s
  | some _ => DOut.err (key ++ ": invalid type")
  | none => DOut.err (key ++ ": missing field")

/-- serde decode of the `Ipv4Addr` field: a dotted-quad string is
required; missing, null, or unparsable input is a decode error. -/
def decodeIpField (fields : List (String × Json)) (key : String) : DOut Ipv4Addr :=
  match jLookup fields key with
  | some (Json.str s) =>
    match Ipv4Addr.parse s with
    | some ip => DOut.ok ip
    | none => DOut.err (key ++ ": invalid IPv4 address")
  | some _ => DOut.err (key ++ ": invalid type")
  | none => DOut.err (key ++ ": missing field")

/-- `Deserialize for BlockadeNetStatus`: `deserialize_str` with the
visitor calling `Stringify::from_str`, which panics on unknown tokens. -/
def decodeNetStatusJson (j : Json) : DOut BlockadeNetStatus :=
  match j with
  | Json.str s =>
    match BlockadeNetStatus.from_str s with
    | some v => DOut.ok v
    | none => DOut.crash "Unexpected enum input"
  | _ => DOut.err "invalid type: expected string"

/-- `Deserialize for BlockadeContainerStatus`: `deserialize_str` with the
visitor calling `Stringify::from_str`, which panics on unknown tokens. -/
def decodeContainerStatusJson (j : Json) : DOut BlockadeContainerStatus :=
  match j with
  | Json.str s =>
    match BlockadeContainerStatus.from_str s with
    | some v => DOut.ok v
    | none => DOut.crash "Unexpected enum input"
  | _ => DOut.err "invalid type: expected string"

/-- `Deserialize for BlockadeCommand`: `deserialize_str` with the
visitor calling `Stringify::from_str`, which panics on unknown tokens. -/
def decodeCommandJson (j : Json) : DOut BlockadeCommand :=
  match j with
  | Json.str s =>
    match BlockadeCommand.from_str s with
    | some v => DOut.ok v
    | none => DOut.crash "Unexpected enum input"
  | _ => DOut.err "invalid type: expected string"

/-- serde decode of a required enum-valued field. -/
def decodeEnumField {α : Type} (fields : List (String × Json)) (key : String)
    (dec : Json → DOut α) : DOut α :=
  match jLookup fields key with
  | some j => dec j
  | none => DOut.err (key ++ ": missing field")

/-- serde decode of the `Option<u32>` `partition` field: a missing key or
a JSON null both give `none`; a number in u32 range gives `some`. -/
def decodePartitionField (fields : List (String × Json)) : DOut (Option Nat) :=
  match jLookup fields "partition" with
  | none => DOut.ok none
  | some Json.null => DOut.ok none
  | some (Json.num n) =>
    if 0 ≤ n ∧ n < 4294967296 then DOut.ok (some n.toNat)
    else DOut.err "partition: invalid u32"
  | some _ => DOut.err "partition: invalid type"

/-- Derived `Deserialize for BlockadeContainerState`: every field except
`partition` is required; `device` and `ip_address` have no defaults. -/
def decodeContainerState (j : Json) : DOut BlockadeContainerState :=
  match j with
  | Json.obj fields =>
    DOut.bind (decodeStringField fields "container_id") (fun cid =>
    DOut.bind (decodeStringField fields "device") (fun dev =>
    DOut.bind (decodeIpField fields "ip_address") (fun ip =>
    DOut.bind (decodeStringField fields "name") (fun nm =>
    DOut.bind (decodeEnumField fields "network_state" decodeNetStatusJson) (fun ns =>
    DOut.bind (decodePartitionField fields) (fun part =>
    DOut.bind (decodeEnumField fields "status" decodeContainerStatusJson) (fun st =>
    DOut.ok ⟨cid, dev, ip, nm, ns, part, st⟩)))))))
  | _ => DOut.err "invalid type: expected object"

/-- serde decode of `HashMap<String, BlockadeContainerState>`. -/
def decodeContainersMap : List (String × Json) → DOut (List (String × BlockadeContainerState))
  | [] => DOut.ok []
  | (k, v) :: rest =>
    DOut.bind (decodeContainerState v) (fun st =>
    DOut.bind (decodeContainersMap rest) (fun tail =>
    DOut.ok ((k, st) :: tail)))

/-- Derived `Deserialize for BlockadeState`. -/
def decodeBlockadeState (j : Json) : DOut BlockadeState :=
  match j with
  | Json.obj fields =>
    match jLookup fields "containers" with
    | some (Json.obj cfields) =>
      DOut.bind (decodeContainersMap cfields) (fun cs => DOut.ok ⟨cs⟩)
    | some _ => DOut.err "containers: invalid type"
    | none => DOut.err "containers: missing field"
  | _ => DOut.err "invalid type: expected object"

/-- serde decode of `Vec<String>`. -/
def decodeStringItems : List Json → DOut (List String)
  | [] => DOut.ok []
  | Json.str s :: rest =>
    DOut.bind (decodeStringItems rest) (fun t => DOut.ok (s :: t))
  | _ :: _ => DOut.err "invalid type: expected string"

def decodeStringList (j : Json) : DOut (List String) :=
  match j with
  | Json.arr items => decodeStringItems items
  | _ => DOut.err "invalid type: expected array"

def decodeStringListFields : List (String × Json) → DOut (List (String × List String))
  | [] => DOut.ok []
  | (k, v) :: rest =>
    DOut.bind (decodeStringList v) (fun l =>
    DOut.bind (decodeStringListFields rest) (fun t =>
    DOut.ok ((k, l) :: t)))

/-- serde decode of `HashMap<String, Vec<String>>`, the body of the
collection endpoint response in `execute_list_blockades`. -/
def decodeStringListMap (j : Json) : DOut (List (String × List String)) :=
  match j with
  | Json.obj fields => decodeStringListFields fields
  | _ => DOut.err "invalid type: expected object"

/-- src/blockade.rs `BlockadeError` (payloads of the wrapped library
errors reduced to the information the code inspects). -/
inductive BlockadeError where
  | HttpError
  | ServerError (body : String)
  | OtherError (msg : String)
  | JsonError (msg : String)
deriving DecidableEq

/-- The HTTP requests the handler can send, with their payloads. -/
inductive Request where
  | createReq (name : String) (config : BlockadeConfig)
  | actionReq (name : String) (args : BlockadeCommandArgs)
  | netReq (name : String) (args : BlockadeNetArgs)
  | partitionReq (name : String) (args : BlockadePartitionArgs)
  | restoreReq (name : String)
  | listReq
  | getReq (name : String)
  | deleteReq (name : String)
deriving DecidableEq

/-- The transport's answer to one request: a 2xx response whose body
parses to the given JSON, a non-2xx response with its body text, or a
transport-level failure (`reqwest::Error`). -/
inductive Response where
  | ok (body : Json)
  | httpErr (text : String)
  | transport

/-- src/blockade.rs `BlockadeHandler` (the reqwest client is replaced by
the response oracle; HashMaps are association lists). -/
structure BlockadeHandler where
  host : String
  blockades : List String
  state : List (String × BlockadeState)
  config : List (String × BlockadeConfig)

/-- Result of running one handler operation: `res` is `some` of the Rust
`Result` value, or `none` when the operation panicked (process abort);
`handler` the handler afterwards, `k` the next response index, `trace`
the requests sent, in order. -/
structure Outcome (α : Type) where
  res : Option (Except BlockadeError α)
  handler : BlockadeHandler
  k : Nat
  trace : List Request

/-- Association-list lookup (HashMap get / contains_key / index). -/
def lookupA {β : Type} (m : List (String × β)) (key : String) : Option β :=
  match m with
  | [] => none
  | (k, v) :: rest => if k = key then some v else lookupA rest key

/-- Association-list removal (HashMap remove). -/
def removeA {β : Type} (m : List (String × β)) (key : String) : List (String × β) :=
  m.filter (fun p => !decide (p.1 = key))

/-- Association-list insert-or-replace (HashMap insert). -/
def insertA {β : Type} (m : List (String × β)) (key : String) (v : β) : List (String × β) :=
  (key, v) :: removeA m key

/-- `?`-style sequencing: run `f` only when `o` succeeded, propagate an
error or a panic, and concatenate the request traces. -/
def Outcome.andThen {α : Type} (o : Outcome Unit) (f : BlockadeHandler → Nat → Outcome α) :
    Outcome α :=
  match o.res with
  | some (Except.ok _) =>
    let o2 := f o.handler o.k
    ⟨o2.res, o2.handler, o2.k, o.trace ++ o2.trace⟩
  | some (Except.error e) => ⟨some (Except.error e), o.handler, o.k, o.trace⟩
  | none => ⟨none, o.handler, o.k, o.trace⟩

/-- Unconditional continuation after `o` (its result discarded): used
where the Rust code drops a `Result` and goes on. -/
def Outcome.append {α : Type} (o : Outcome Unit) (o2 : Outcome α) : Outcome α :=
  ⟨o2.res, o2.handler, o2.k, o.trace ++ o2.trace⟩

/-- src/blockade.rs `execute_setup`: records the config in the shadow
first, then POSTs the config; non-2xx becomes `ServerError(body)`. -/
def execute_setup (env : Nat → Response) (name : String) (config : BlockadeConfig)
    (h : BlockadeHandler) (k : Nat) : Outcome Unit :=
  let h1 := { h with config := insertA h.config name config }
  match env k with
  | Response.ok _ =>
    ⟨some (Except.ok ()), h1, k + 1, [Request.createReq name config]⟩
  | Response.httpErr t =>
    ⟨some (Except.error (BlockadeError.ServerError t)), h1, k + 1, [Request.createReq name config]⟩
  | Response.transport =>
    ⟨some (Except.error BlockadeError.HttpError), h1, k + 1, [Request.createReq name config]⟩

/-- src/blockade.rs `execute_command`. -/
def execute_command (env : Nat → Response) (name : String) (command : BlockadeCommand)
    (containers : List String) (h : BlockadeHandler) (k : Nat) : Outcome Unit :=
  let req := Request.actionReq name ⟨command, containers⟩
  match env k with
  | Response.ok _ => ⟨some (Except.ok ()), h, k + 1, [req]⟩
  | Response.httpErr t => ⟨some (Except.error (BlockadeError.ServerError t)), h, k + 1, [req]⟩
  | Response.transport => ⟨some (Except.error BlockadeError.HttpError), h, k + 1, [req]⟩

/-- src/blockade.rs `execute_net_command`. -/
def execute_net_command (env : Nat → Response) (name : String)
    (network_state : BlockadeNetStatus) (container_names : List String)
    (h : BlockadeHandler) (k : Nat) : Outcome Unit :=
  let req := Request.netReq name ⟨network_state, container_names⟩
  match env k with
  | Response.ok _ => ⟨some (Except.ok ()), h, k + 1, [req]⟩
  | Response.httpErr t => ⟨some (Except.error (BlockadeError.ServerError t)), h, k + 1, [req]⟩
  | Response.transport => ⟨some (Except.error BlockadeError.HttpError), h, k + 1, [req]⟩

/-- src/blockade.rs `execute_partition`. -/
def execute_partition (env : Nat → Response) (name : String)
    (partitions : List (List String)) (h : BlockadeHandler) (k : Nat) : Outcome Unit :=
  let req := Request.partitionReq name ⟨partitions⟩
  match env k with
  | Response.ok _ => ⟨some (Except.ok ()), h, k + 1, [req]⟩
  | Response.httpErr t => ⟨some (Except.error (BlockadeError.ServerError t)), h, k + 1, [req]⟩
  | Response.transport => ⟨some (Except.error BlockadeError.HttpError), h, k + 1, [req]⟩

/-- src/blockade.rs `execute_restore_network`. -/
def execute_restore_network (env : Nat → Response) (name : String)
    (h : BlockadeHandler) (k : Nat) : Outcome Unit :=
  match env k with
  | Response.ok _ => ⟨some (Except.ok ()), h, k + 1, [Request.restoreReq name]⟩
  | Response.httpErr t =>
    ⟨some (Except.error (BlockadeError.ServerError t)), h, k + 1, [Request.restoreReq name]⟩
  | Response.transport =>
    ⟨some (Except.error BlockadeError.HttpError), h, k + 1, [Request.restoreReq name]⟩

/-- src/blockade.rs `execute_list_blockades`: on 2xx, decode the body as
a string-to-string-list map; a missing "blockades" key yields the empty
list; the handler's `blockades` field is replaced on success only. -/
def execute_list_blockades (env : Nat → Response) (h : BlockadeHandler) (k : Nat) :
    Outcome Unit :=
  match env k with
  | Response.ok body =>
    match decodeStringListMap body with
    | DOut.ok v =>
      let bl := match lookupA v "blockades" with
        | some n => n
        | none => []
      ⟨some (Except.ok ()), { h with blockades := bl }, k + 1, [Request.listReq]⟩
    | DOut.err m => ⟨some (Except.error (BlockadeError.JsonError m)), h, k + 1, [Request.listReq]⟩
    | DOut.crash _ => ⟨none, h, k + 1, [Request.listReq]⟩
  | Response.httpErr t =>
    ⟨some (Except.error (BlockadeError.ServerError t)), h, k + 1, [Request.listReq]⟩
  | Response.transport =>
    ⟨some (Except.error BlockadeError.HttpError), h, k + 1, [Request.listReq]⟩

/-- src/blockade.rs `execute_get_blockade`: on 2xx, decode the body as a
`BlockadeState` and insert it into the state shadow; a panic inside the
enum decode aborts (res `none`). -/
def execute_get_blockade (env : Nat → Response) (name : String)
    (h : BlockadeHandler) (k : Nat) : Outcome Unit :=
  match env k with
  | Response.ok body =>
    match decodeBlockadeState body with
    | DOut.ok s =>
      ⟨some (Except.ok ()), { h with state := insertA h.state name s }, k + 1,
        [Request.getReq name]⟩
    | DOut.err m => ⟨some (Except.error (BlockadeError.JsonError m)), h, k + 1, [Request.getReq name]⟩
    | DOut.crash _ => ⟨none, h, k + 1, [Request.getReq name]⟩
  | Response.httpErr t =>
    ⟨some (Except.error (BlockadeError.ServerError t)), h, k + 1, [Request.getReq name]⟩
  | Response.transport =>
    ⟨some (Except.error BlockadeError.HttpError), h, k + 1, [Request.getReq name]⟩

/-- src/blockade.rs `execute_delete_blockade`: on 2xx, remove the state
shadow entry (the config shadow entry is untouched). -/
def execute_delete_blockade (env : Nat → Response) (name : String)
    (h : BlockadeHandler) (k : Nat) : Outcome Unit :=
  match env k with
  | Response.ok _ =>
    ⟨some (Except.ok ()), { h with state := removeA h.state name }, k + 1,
      [Request.deleteReq name]⟩
  | Response.httpErr t =>
    ⟨some (Except.error (BlockadeError.ServerError t)), h, k + 1, [Request.deleteReq name]⟩
  | Response.transport =>
    ⟨some (Except.error BlockadeError.HttpError), h, k + 1, [Request.deleteReq name]⟩

/-- src/blockade.rs `destroy_blockade`: fetch the state first, then
delete; the `?` on the fetch stops the delete when the fetch fails. -/
def destroy_blockade (env : Nat → Response) (name : String)
    (h : BlockadeHandler) (k : Nat) : Outcome Unit :=
  (execute_get_blockade env name h k).andThen (fun h2 k2 =>
    execute_delete_blockade env name h2 k2)

/-- src/blockade.rs `start_blockade`: attempt the create; when it fails
with `ServerError` whose body is exactly "Blockade name already exists"
and `restart` is set, destroy and retry the create once, returning that
outcome directly.  In every other case — success, or any other error
with the error value dropped by the `match` — fall through to a fetch
of the blockade state. -/
def start_blockade (env : Nat → Response) (name : String) (config : BlockadeConfig)
    (restart : Bool) (h : BlockadeHandler) (k : Nat) : Outcome Unit :=
  let o := execute_setup env name config h k
  match restart, o.res with
  | true, some (Except.error (BlockadeError.ServerError s)) =>
    if s = "Blockade name already exists" then
      o.append ((destroy_blockade env name o.handler o.k).andThen (fun h2 k2 =>
        execute_setup env name config h2 k2))
    else
      o.append (execute_get_blockade env name o.handler o.k)
  | _, none => ⟨none, o.handler, o.k, o.trace⟩
  | _, _ => o.append (execute_get_blockade env name o.handler o.k)

/-- Rust's stable sort on `Vec<String>` (ascending lexicographic). -/
def sortStrings (l : List String) : List String :=
  List.insertionSort (fun a b => a ≤ b) l

/-- src/blockade.rs `get_all_containers`: fetch the state, then return
the container keys of the (freshly inserted) shadow entry, sorted. -/
def get_all_containers (env : Nat → Response) (name : String)
    (h : BlockadeHandler) (k : Nat) : Outcome (List String) :=
  (execute_get_blockade env name h k).andThen (fun h2 k2 =>
    let keys : List String :=
      match lookupA h2.state name with
      | some st => st.containers.map Prod.fst
      | none => []
    ⟨some (Except.ok (sortStrings keys)), h2, k2, []⟩)

/-- src/blockade.rs `choose_random_container`: no HTTP call; `r` models
the draw of `thread_rng` feeding `seq::sample_iter`, which picks one
key uniformly from the cached container map. -/
def choose_random_container (r : Nat) (name : String)
    (h : BlockadeHandler) (k : Nat) : Outcome String :=
  match lookupA h.state name with
  | some st =>
    if 1 ≤ st.containers.length then
      ⟨some (Except.ok ((st.containers.map Prod.fst).getD (r % st.containers.length) "")),
        h, k, []⟩
    else
      ⟨some (Except.error (BlockadeError.OtherError "No containers to choose from")), h, k, []⟩
  | none =>
    ⟨some (Except.error (BlockadeError.OtherError "Blockade not found in map")), h, k, []⟩

/-- The `for` loop of src/blockade.rs `fetch_state`: refresh each listed
blockade in turn; `?` aborts the loop at the first failure. -/
def refresh_each (env : Nat → Response) (names : List String)
    (h : BlockadeHandler) (k : Nat) : Outcome Unit :=
  match names with
  | [] => ⟨some (Except.ok ()), h, k, []⟩
  | n :: rest =>
    (execute_get_blockade env n h k).andThen (fun h2 k2 =>
      refresh_each env rest h2 k2)

/-- src/blockade.rs `fetch_state`: list the blockades, then refresh each
of them, failing fast. -/
def fetch_state (env : Nat → Response) (h : BlockadeHandler) (k : Nat) : Outcome Unit :=
  (execute_list_blockades env h k).andThen (fun h2 k2 =>
    refresh_each env h2.blockades h2 k2)

/-- The `for` loop of src/blockade.rs `new`: fetch each listed blockade,
discarding any error (`Ok(_) => {}, Err(_) => {}`) and continuing. -/
def prewarm_loop (env : Nat → Response) (names : List String)
    (h : BlockadeHandler) (k : Nat) : Outcome Unit :=
  match names with
  | [] => ⟨some (Except.ok ()), h, k, []⟩
  | n :: rest =>
    let o := execute_get_blockade env n h k
    match o.res with
    | none => ⟨none, o.handler, o.k, o.trace⟩
    | some _ => o.append (prewarm_loop env rest o.handler o.k)

/-- src/blockade.rs `new`: build an empty handler, then best-effort
pre-warm the shadow by listing the blockades and fetching each; every
error during pre-warming is discarded and the handler is returned. -/
def new_handler (env : Nat → Response) (host : String) : Outcome Unit :=
  let h0 : BlockadeHandler := ⟨host, [], [], []⟩
  let o := execute_list_blockades env h0 0
  match o.res with
  | some (Except.ok _) => o.append (prewarm_loop env o.handler.blockades o.handler o.k)
  | some (Except.error _) => ⟨some (Except.ok ()), o.handler, o.k, o.trace⟩
  | none => ⟨none, o.handler, o.k, o.trace⟩

/-! ### Association-list laws -/

theorem lookupA_removeA_self {β : Type} (m : List (String × β)) (key : String) :
    lookupA (removeA m key) key = none := by
  induction m with
  | nil => rfl
  | cons p rest ih =>
    simp only [removeA, List.filter_cons] at ih ⊢
    by_cases hp : p.1 = key
    · simp [hp, ih]
    · simp [hp, lookupA, ih]

theorem lookupA_removeA_ne {β : Type} (m : List (String × β)) {key k' : String}
    (hne : k' ≠ key) : lookupA (removeA m key) k' = lookupA m k' := by
  induction m with
  | nil => rfl
  | cons p rest ih =>
    simp only [removeA, List.filter_cons] at ih ⊢
    by_cases hp : p.1 = key
    · have hak : ¬ p.1 = k' := fun hc => hne (hc ▸ hp)
      simp [hp, hak, lookupA, ih, hne.symm]
    · by_cases hak : p.1 = k' <;> simp [hp, hak, lookupA, ih, hne, hne.symm]

theorem lookupA_insertA_self {β : Type} (m : List (String × β)) (key : String) (v : β) :
    lookupA (insertA m key v) key = some v := by
  simp [insertA, lookupA]

theorem lookupA_insertA_ne {β : Type} (m : List (String × β)) {key k' : String} (v : β)
    (hne : k' ≠ key) : lookupA (insertA m key v) k' = lookupA m k' := by
  simp [insertA, lookupA, Ne.symm hne, lookupA_removeA_ne m hne]

/-! ### Shape lemmas for the protocol primitives -/

theorem execute_setup_handler (env : Nat → Response) (name : String) (cfg : BlockadeConfig)
    (h : BlockadeHandler) (k : Nat) :
    (execute_setup env name cfg h k).handler = { h with config := insertA h.config name cfg } := by
  unfold execute_setup
  cases env k <;> simp

theorem execute_setup_k (env : Nat → Response) (name : String) (cfg : BlockadeConfig)
    (h : BlockadeHandler) (k : Nat) : (execute_setup env name cfg h k).k = k + 1 := by
  unfold execute_setup
  cases env k <;> simp

theorem execute_setup_trace (env : Nat → Response) (name : String) (cfg : BlockadeConfig)
    (h : BlockadeHandler) (k : Nat) :
    (execute_setup env name cfg h k).trace = [Request.createReq name cfg] := by
  unfold execute_setup
  cases env k <;> simp

theorem execute_get_k (env : Nat → Response) (name : String) (h : BlockadeHandler) (k : Nat) :
    (execute_get_blockade env name h k).k = k + 1 := by
  unfold execute_get_blockade
  cases env k with
  | ok body => cases hdec : decodeBlockadeState body <;> simp [hdec]
  | httpErr t => simp
  | transport => simp

theorem execute_get_trace (env : Nat → Response) (name : String) (h : BlockadeHandler) (k : Nat) :
    (execute_get_blockade env name h k).trace = [Request.getReq name] := by
  unfold execute_get_blockade
  cases env k with
  | ok body => cases hdec : decodeBlockadeState body <;> simp [hdec]
  | httpErr t => simp
  | transport => simp

theorem execute_get_host (env : Nat → Response) (name : String) (h : BlockadeHandler) (k : Nat) :
    (execute_get_blockade env name h k).handler.host = h.host := by
  unfold execute_get_blockade
  cases env k with
  | ok body => cases hdec : decodeBlockadeState body <;> simp [hdec]
  | httpErr t => simp
  | transport => simp

theorem execute_get_blockades (env : Nat → Response) (name : String)
    (h : BlockadeHandler) (k : Nat) :
    (execute_get_blockade env name h k).handler.blockades = h.blockades := by
  unfold execute_get_blockade
  cases env k with
  | ok body => cases hdec : decodeBlockadeState body <;> simp [hdec]
  | httpErr t => simp
  | transport => simp

theorem execute_get_config (env : Nat → Response) (name : String)
    (h : BlockadeHandler) (k : Nat) :
    (execute_get_blockade env name h k).handler.config = h.config := by
  unfold execute_get_blockade
  cases env k with
  | ok body => cases hdec : decodeBlockadeState body <;> simp [hdec]
  | httpErr t => simp
  | transport => simp

theorem execute_get_fail_eq (env : Nat → Response) (name : String)
    (h : BlockadeHandler) (k : Nat) (e : BlockadeError)
    (hfail : (execute_get_blockade env name h k).res = some (Except.error e)) :
    execute_get_blockade env name h k =
      ⟨some (Except.error e), h, k + 1, [Request.getReq name]⟩ := by
  unfold execute_get_blockade at hfail ⊢
  repeat' split at hfail
  all_goals simp_all

theorem execute_get_ok_eq (env : Nat → Response) (name : String)
    (h : BlockadeHandler) (k : Nat)
    (hok : (execute_get_blockade env name h k).res = some (Except.ok ())) :
    ∃ st, execute_get_blockade env name h k =
      ⟨some (Except.ok ()), { h with state := insertA h.state name st }, k + 1,
        [Request.getReq name]⟩ := by
  unfold execute_get_blockade at hok ⊢
  repeat' split at hok
  all_goals simp_all

theorem execute_delete_k (env : Nat → Response) (name : String)
    (h : BlockadeHandler) (k : Nat) :
    (execute_delete_blockade env name h k).k = k + 1 := by
  unfold execute_delete_blockade
  cases env k <;> simp

theorem execute_delete_trace (env : Nat → Response) (name : String)
    (h : BlockadeHandler) (k : Nat) :
    (execute_delete_blockade env name h k).trace = [Request.deleteReq name] := by
  unfold execute_delete_blockade
  cases env k <;> simp

theorem execute_delete_config (env : Nat → Response) (name : String)
    (h : BlockadeHandler) (k : Nat) :
    (execute_delete_blockade env name h k).handler.config = h.config := by
  unfold execute_delete_blockade
  cases env k <;> simp

theorem execute_delete_ok_eq (env : Nat → Response) (name : String)
    (h : BlockadeHandler) (k : Nat)
    (hok : (execute_delete_blockade env name h k).res = some (Except.ok ())) :
    execute_delete_blockade env name h k =
      ⟨some (Except.ok ()), { h with state := removeA h.state name }, k + 1,
        [Request.deleteReq name]⟩ := by
  unfold execute_delete_blockade at hok ⊢
  repeat' split at hok
  all_goals simp_all

theorem execute_delete_fail_eq (env : Nat → Response) (name : String)
    (h : BlockadeHandler) (k : Nat) (e : BlockadeError)
    (hfail : (execute_delete_blockade env name h k).res = some (Except.error e)) :
    execute_delete_blockade env name h k =
      ⟨some (Except.error e), h, k + 1, [Request.deleteReq name]⟩ := by
  unfold execute_delete_blockade at hfail ⊢
  repeat' split at hfail
  all_goals simp_all

theorem execute_list_k (env : Nat → Response) (h : BlockadeHandler) (k : Nat) :
    (execute_list_blockades env h k).k = k + 1 := by
  unfold execute_list_blockades
  cases env k with
  | ok body => cases hdec : decodeStringListMap body <;> simp [hdec]
  | httpErr t => simp
  | transport => simp

theorem execute_list_trace (env : Nat → Response) (h : BlockadeHandler) (k : Nat) :
    (execute_list_blockades env h k).trace = [Request.listReq] := by
  unfold execute_list_blockades
  cases env k with
  | ok body => cases hdec : decodeStringListMap body <;> simp [hdec]
  | httpErr t => simp
  | transport => simp

theorem execute_list_host (env : Nat → Response) (h : BlockadeHandler) (k : Nat) :
    (execute_list_blockades env h k).handler.host = h.host := by
  unfold execute_list_blockades
  cases env k with
  | ok body => cases hdec : decodeStringListMap body <;> simp [hdec]
  | httpErr t => simp
  | transport => simp

theorem execute_list_state (env : Nat → Response) (h : BlockadeHandler) (k : Nat) :
    (execute_list_blockades env h k).handler.state = h.state := by
  unfold execute_list_blockades
  cases env k with
  | ok body => cases hdec : decodeStringListMap body <;> simp [hdec]
  | httpErr t => simp
  | transport => simp

theorem execute_list_config (env : Nat → Response) (h : BlockadeHandler) (k : Nat) :
    (execute_list_blockades env h k).handler.config = h.config := by
  unfold execute_list_blockades
  cases env k with
  | ok body => cases hdec : decodeStringListMap body <;> simp [hdec]
  | httpErr t => simp
  | transport => simp

theorem execute_list_fail_handler (env : Nat → Response) (h : BlockadeHandler) (k : Nat)
    (e : BlockadeError)
    (hfail : (execute_list_blockades env h k).res = some (Except.error e)) :
    (execute_list_blockades env h k).handler = h := by
  unfold execute_list_blockades at hfail ⊢
  repeat' split at hfail
  all_goals simp_all

theorem destroy_ok_trace (env : Nat → Response) (name : String)
    (h : BlockadeHandler) (k : Nat)
    (hok : (destroy_blockade env name h k).res = some (Except.ok ())) :
    (destroy_blockade env name h k).trace = [Request.getReq name, Request.deleteReq name] := by
  unfold destroy_blockade Outcome.andThen at hok ⊢
  cases hres : (execute_get_blockade env name h k).res with
  | none => simp [hres] at hok
  | some r =>
    cases r with
    | error e => simp [hres] at hok
    | ok u =>
      simp only [hres]
      simp [execute_get_trace, execute_delete_trace]

/-! ### Wire-model claims -/

/-- A container-state document with every field present and valid;
`d` is the value of the `device` field. -/
def containerDoc (d : String) : Json := Json.obj
  [ ("container_id", Json.str "c1"), ("device", Json.str d),
    ("ip_address", Json.str "1.2.3.4"), ("name", Json.str "n1"),
    ("network_state", Json.str "FAST"), ("partition", Json.num 5),
    ("status", Json.str "UP") ]

/-- The same document without the `device` key. -/
def containerDocNoDevice : Json := Json.obj
  [ ("container_id", Json.str "c1"),
    ("ip_address", Json.str "1.2.3.4"), ("name", Json.str "n1"),
    ("network_state", Json.str "FAST"), ("partition", Json.num 5),
    ("status", Json.str "UP") ]

/-- The same document with `device: null`. -/
def containerDocNullDevice : Json := Json.obj
  [ ("container_id", Json.str "c1"), ("device", Json.null),
    ("ip_address", Json.str "1.2.3.4"), ("name", Json.str "n1"),
    ("network_state", Json.str "FAST"), ("partition", Json.num 5),
    ("status", Json.str "UP") ]

/-- The same document with `ip_address: null`. -/
def containerDocNullIp : Json := Json.obj
  [ ("container_id", Json.str "c1"), ("device", Json.str "eth0"),
    ("ip_address", Json.null), ("name", Json.str "n1"),
    ("network_state", Json.str "FAST"), ("partition", Json.num 5),
    ("status", Json.str "UP") ]

/-- The same document with `partition: null`. -/
def containerDocNullPartition : Json := Json.obj
  [ ("container_id", Json.str "c1"), ("device", Json.str "eth0"),
    ("ip_address", Json.str "1.2.3.4"), ("name", Json.str "n1"),
    ("network_state", Json.str "FAST"), ("partition", Json.null),
    ("status", Json.str "UP") ]

/-- The same document with no `partition` key. -/
def containerDocNoPartition : Json := Json.obj
  [ ("container_id", Json.str "c1"), ("device", Json.str "eth0"),
    ("ip_address", Json.str "1.2.3.4"), ("name", Json.str "n1"),
    ("network_state", Json.str "FAST"),
    ("status", Json.str "UP") ]

/-- C2 (counterexample): the claim says the lowercase tokens "fast" and
"up" are accepted and that unknown tokens yield a `DecodeError`.  In the
code, `BlockadeNetStatus::from_str` and `BlockadeContainerStatus::from_str`
match only uppercase tokens and panic (crash) on everything else, so
"fast" and "up" hit the panic arm, not a decode error. -/
theorem enum_decode_claim_cex :
    BlockadeNetStatus.from_str "fast" = none ∧
    BlockadeContainerStatus.from_str "up" = none ∧
    decodeNetStatusJson (Json.str "fast") = DOut.crash "Unexpected enum input" ∧
    decodeContainerStatusJson (Json.str "up") = DOut.crash "Unexpected enum input" ∧
    decodeNetStatusJson (Json.str "bogus") = DOut.crash "Unexpected enum input" :=
  ⟨rfl, rfl, rfl, rfl, rfl⟩

/-- C2 (amended): `BlockadeCommand` decode accepts exactly the lowercase
tokens start/stop/restart/kill; `BlockadeNetStatus` decode accepts
exactly the uppercase tokens NORMAL/FAST/SLOW/DUPLICATE/FLAKY/UNKNOWN
(NORMAL and FAST both map to Fast); `BlockadeContainerStatus` decode
accepts exactly the uppercase tokens UP/DOWN/MISSING; any token outside
the accepted set makes the decode panic (process crash), never a
`DecodeError` and never a silent default. -/
theorem enum_decode_amended (s : String) :
    ((BlockadeCommand.from_str s).isSome ↔
      s ∈ (["start", "stop", "restart", "kill"] : List String)) ∧
    ((BlockadeNetStatus.from_str s).isSome ↔
      s ∈ (["NORMAL", "FAST", "SLOW", "DUPLICATE", "FLAKY", "UNKNOWN"] : List String)) ∧
    ((BlockadeContainerStatus.from_str s).isSome ↔
      s ∈ (["UP", "DOWN", "MISSING"] : List String)) ∧
    BlockadeNetStatus.from_str "NORMAL" = some BlockadeNetStatus.Fast ∧
    BlockadeNetStatus.from_str "FAST" = some BlockadeNetStatus.Fast ∧
    (BlockadeNetStatus.from_str s = none →
      decodeNetStatusJson (Json.str s) = DOut.crash "Unexpected enum input") ∧
    (BlockadeContainerStatus.from_str s = none →
      decodeContainerStatusJson (Json.str s) = DOut.crash "Unexpected enum input") ∧
    (BlockadeCommand.from_str s = none →
      decodeCommandJson (Json.str s) = DOut.crash "Unexpected enum input") := by
  refine ⟨?_, ?_, ?_, rfl, rfl, ?_, ?_, ?_⟩
  · unfold BlockadeCommand.from_str
    split_ifs <;> simp_all
  · unfold BlockadeNetStatus.from_str
    split_ifs <;> simp_all
  · unfold BlockadeContainerStatus.from_str
    split_ifs <;> simp_all
  · intro hnone
    simp [decodeNetStatusJson, hnone]
  · intro hnone
    simp [decodeContainerStatusJson, hnone]
  · intro hnone
    simp [decodeCommandJson, hnone]

/-- C2 (amended, witness): the lowercase token "fast" is outside the
accepted set of `BlockadeNetStatus` decode and the decode panics on it. -/
theorem enum_decode_amended_witness :
    decodeNetStatusJson (Json.str "fast") = DOut.crash "Unexpected enum input" :=
  (enum_decode_amended "fast").2.2.2.2.2.1 rfl

/-- C3 (counterexample): the claim says decoding tolerates a missing or
null `device` (yielding "") and a null `ip_address` (yielding 0.0.0.0),
and that a missing or null `partition` yields 0.  The derived serde
decode of `BlockadeContainerState` has no such defaults: a missing or
null `device` and a null `ip_address` are hard decode errors, and a
null `partition` decodes to `None`, not `Some 0`. -/
theorem container_state_decode_claim_cex :
    decodeContainerState containerDocNoDevice = DOut.err "device: missing field" ∧
    decodeContainerState containerDocNullDevice = DOut.err "device: invalid type" ∧
    decodeContainerState containerDocNullIp = DOut.err "ip_address: invalid type" ∧
    decodeContainerState containerDocNullPartition =
      DOut.ok ⟨"c1", "eth0", ⟨1, 2, 3, 4⟩, "n1", BlockadeNetStatus.Fast, none,
        BlockadeContainerStatus.Up⟩ :=
  ⟨rfl, rfl, rfl, rfl⟩

/-- C3 (amended): decoding a `BlockadeContainerState` document requires
`device` and `ip_address` to be present and non-null (absence or null is
a decode error); a `device` of "" decodes to ""; `partition` null or
absent decodes to `None` (no partition value recorded), a `u32` number
to `Some`; a full valid document decodes to exactly its field values. -/
theorem container_state_decode_amended (d : String) :
    decodeContainerState (containerDoc d) =
      DOut.ok ⟨"c1", d, ⟨1, 2, 3, 4⟩, "n1", BlockadeNetStatus.Fast, some 5,
        BlockadeContainerStatus.Up⟩ ∧
    decodeContainerState (containerDoc "") =
      DOut.ok ⟨"c1", "", ⟨1, 2, 3, 4⟩, "n1", BlockadeNetStatus.Fast, some 5,
        BlockadeContainerStatus.Up⟩ ∧
    decodeContainerState containerDocNullPartition =
      DOut.ok ⟨"c1", "eth0", ⟨1, 2, 3, 4⟩, "n1", BlockadeNetStatus.Fast, none,
        BlockadeContainerStatus.Up⟩ ∧
    decodeContainerState containerDocNoPartition =
      DOut.ok ⟨"c1", "eth0", ⟨1, 2, 3, 4⟩, "n1", BlockadeNetStatus.Fast, none,
        BlockadeContainerStatus.Up⟩ ∧
    decodeContainerState containerDocNoDevice = DOut.err "device: missing field" ∧
    decodeContainerState containerDocNullDevice = DOut.err "device: invalid type" ∧
    decodeContainerState containerDocNullIp = DOut.err "ip_address: invalid type" :=
  ⟨rfl, rfl, rfl, rfl, rfl, rfl, rfl⟩

/-! ### Handler-layer claims -/

/-- Fixture: an environment whose every request fails at the transport. -/
def envT : Nat → Response := fun _ => Response.transport

/-- Fixture: a fresh handler for host "H". -/
def h0 : BlockadeHandler := ⟨"H", [], [], []⟩

/-- Fixture: a minimal blockade config. -/
def cfg0 : BlockadeConfig := ⟨[], ⟨"10%", "75ms 100ms distribution normal", "udn"⟩⟩

/-- Fixture: a state body with no containers, decodable as `BlockadeState`. -/
def stateBody : Json := Json.obj [("containers", Json.obj [])]

/-- Fixture: one observed container state. -/
def cst0 : BlockadeContainerState :=
  ⟨"cid-a", "eth0", ⟨127, 0, 0, 2⟩, "a", BlockadeNetStatus.Unknown, some 0,
    BlockadeContainerStatus.Missing⟩

/-- Fixture: a blockade state holding the single container "a". -/
def stOne : BlockadeState := ⟨[("a", cst0)]⟩

/-- Fixture: a handler whose shadow holds blockade "b1" with one container. -/
def hOne : BlockadeHandler := ⟨"H", [], [("b1", stOne)], []⟩

/-- C5: `choose_random_container` fails with `OtherError` "Blockade not
found in map" and no request when no shadow entry exists; fails with the
distinct `OtherError` "No containers to choose from" when the entry has
no containers; and otherwise returns, again with no request, a container
name from the cached key set, every key being reachable by exactly one
draw below the container count (uniform selection). -/
theorem choose_random_container_spec (r : Nat) (name : String) (h : BlockadeHandler) (k : Nat) :
    (lookupA h.state name = none →
      choose_random_container r name h k =
        ⟨some (Except.error (BlockadeError.OtherError "Blockade not found in map")), h, k, []⟩) ∧
    (∀ st, lookupA h.state name = some st → st.containers = [] →
      choose_random_container r name h k =
        ⟨some (Except.error (BlockadeError.OtherError "No containers to choose from")),
          h, k, []⟩) ∧
    (∀ st, lookupA h.state name = some st → st.containers ≠ [] →
      ∃ c, choose_random_container r name h k = ⟨some (Except.ok c), h, k, []⟩ ∧
        c ∈ st.containers.map Prod.fst) ∧
    (∀ st, lookupA h.state name = some st → ∀ c ∈ st.containers.map Prod.fst,
      ∃ i, i < st.containers.length ∧
        choose_random_container i name h k = ⟨some (Except.ok c), h, k, []⟩) ∧
    (∀ st, lookupA h.state name = some st → (st.containers.map Prod.fst).Nodup →
      ∀ i j, i < st.containers.length → j < st.containers.length →
        choose_random_container i name h k = choose_random_container j name h k → i = j) := by
  refine ⟨?_, ?_, ?_, ?_, ?_⟩
  · intro hn
    simp [choose_random_container, hn]
  · intro st hst hc
    simp [choose_random_container, hst, hc]
  · intro st hst hne
    have hlen : 0 < st.containers.length := List.length_pos.mpr hne
    have hlt : r % st.containers.length < (st.containers.map Prod.fst).length := by
      simpa using Nat.mod_lt r hlen
    refine ⟨(st.containers.map Prod.fst).getD (r % st.containers.length) "", ?_, ?_⟩
    · have hlen1 : 1 ≤ st.containers.length := hlen
      simp only [choose_random_container, hst]
      rw [if_pos hlen1]
    · rw [List.getD_eq_getElem _ _ hlt]
      exact List.getElem_mem hlt
  · intro st hst c hc
    obtain ⟨i, hi, hci⟩ := List.mem_iff_getElem.mp hc
    have hi' : i < st.containers.length := by simpa using hi
    have hlen : 0 < st.containers.length := Nat.lt_of_le_of_lt (Nat.zero_le i) hi'
    refine ⟨i, hi', ?_⟩
    have hlen1 : 1 ≤ st.containers.length := hlen
    simp only [choose_random_container, hst]
    rw [if_pos hlen1, Nat.mod_eq_of_lt hi', List.getD_eq_getElem _ _ hi, hci]
  · intro st hst hnd i j hi hj heq
    have hi2 : i % st.containers.length = i := Nat.mod_eq_of_lt hi
    have hj2 : j % st.containers.length = j := Nat.mod_eq_of_lt hj
    have hlen : 0 < st.containers.length := Nat.lt_of_le_of_lt (Nat.zero_le i) hi
    have hlen1 : 1 ≤ st.containers.length := hlen
    simp only [choose_random_container, hst] at heq
    rw [if_pos hlen1, if_pos hlen1, hi2, hj2] at heq
    have hi3 : i < (st.containers.map Prod.fst).length := by simpa using hi
    have hj3 : j < (st.containers.map Prod.fst).length := by simpa using hj
    have h5 := congrArg Outcome.res heq
    have h6 : (st.containers.map Prod.fst).getD i "" = (st.containers.map Prod.fst).getD j "" :=
      Except.ok.inj (Option.some.inj h5)
    rw [List.getD_eq_getElem _ _ hi3, List.getD_eq_getElem _ _ hj3] at h6
    exact (List.Nodup.getElem_inj_iff hnd).mp h6

/-- C5 (witness): on a handler with no entry for "missing" the call
fails locally; on a handler with entry "b1" it returns a cached name. -/
theorem choose_random_container_spec_witness :
    choose_random_container 0 "missing" h0 0 =
      ⟨some (Except.error (BlockadeError.OtherError "Blockade not found in map")), h0, 0, []⟩ ∧
    ∃ c, choose_random_container 0 "b1" hOne 0 = ⟨some (Except.ok c), hOne, 0, []⟩ ∧
      c ∈ stOne.containers.map Prod.fst :=
  ⟨(choose_random_container_spec 0 "missing" h0 0).1 rfl,
   (choose_random_container_spec 0 "b1" hOne 0).2.2.1 stOne rfl (by simp [stOne])⟩

/-- C6: a successful `get_all_containers` returns the decoded blockade's
container names sorted ascending, and the sorted result is the same for
any server-reported ordering of the same names. -/
theorem get_all_containers_sorted (env : Nat → Response) (name : String)
    (h : BlockadeHandler) (k : Nat) (body : Json) (st : BlockadeState)
    (henv : env k = Response.ok body) (hdec : decodeBlockadeState body = DOut.ok st) :
    (get_all_containers env name h k).res =
      some (Except.ok (sortStrings (st.containers.map Prod.fst))) ∧
    List.Sorted (fun a b : String => a ≤ b) (sortStrings (st.containers.map Prod.fst)) ∧
    (sortStrings (st.containers.map Prod.fst)).Perm (st.containers.map Prod.fst) ∧
    ∀ l₁ l₂ : List String, l₁.Perm l₂ → sortStrings l₁ = sortStrings l₂ := by
  have hget : execute_get_blockade env name h k =
      ⟨some (Except.ok ()), { h with state := insertA h.state name st }, k + 1,
        [Request.getReq name]⟩ := by
    unfold execute_get_blockade
    simp only [henv, hdec]
  refine ⟨?_, List.sorted_insertionSort _ _, List.perm_insertionSort _ _, ?_⟩
  · unfold get_all_containers Outcome.andThen
    rw [hget]
    simp [lookupA_insertA_self]
  · intro l₁ l₂ hp
    exact List.eq_of_perm_of_sorted
      ((List.perm_insertionSort _ l₁).trans (hp.trans (List.perm_insertionSort _ l₂).symm))
      (List.sorted_insertionSort _ _) (List.sorted_insertionSort _ _)

/-- Fixture: every request answered 2xx with an empty-container state. -/
def envStEmpty : Nat → Response := fun _ => Response.ok stateBody

/-- C6 (witness): a concrete successful fetch yields the sorted list. -/
theorem get_all_containers_sorted_witness :
    (get_all_containers envStEmpty "b" h0 0).res = some (Except.ok []) :=
  (get_all_containers_sorted envStEmpty "b" h0 0 stateBody ⟨[]⟩ rfl rfl).1

/-- C7: when the collection endpoint replies 2xx with a JSON map lacking
the "blockades" key, `execute_list_blockades` succeeds and records the
empty name list. -/
theorem list_blockades_no_key (env : Nat → Response) (h : BlockadeHandler) (k : Nat)
    (body : Json) (m : List (String × List String))
    (henv : env k = Response.ok body)
    (hdec : decodeStringListMap body = DOut.ok m)
    (hkey : lookupA m "blockades" = none) :
    execute_list_blockades env h k =
      ⟨some (Except.ok ()), { h with blockades := [] }, k + 1, [Request.listReq]⟩ := by
  unfold execute_list_blockades
  simp only [henv, hdec, hkey]

/-- Fixture: every request answered 2xx with the body `{}`. -/
def envEmptyObj : Nat → Response := fun _ => Response.ok (Json.obj [])

/-- C7 (witness): the body `{}` yields success and no blockade names. -/
theorem list_blockades_no_key_witness :
    execute_list_blockades envEmptyObj h0 0 =
      ⟨some (Except.ok ()), { h0 with blockades := [] }, 1, [Request.listReq]⟩ :=
  list_blockades_no_key envEmptyObj h0 0 (Json.obj []) [] rfl rfl rfl

/-- C10: `destroy_blockade` performs a GET of the blockade state first;
when that fetch fails with an error, the error is returned, the DELETE
is never issued (the trace holds only the GET), and the handler — in
particular its cached state entry for the name — is unchanged. -/
theorem destroy_blockade_fetch_first (env : Nat → Response) (name : String)
    (h : BlockadeHandler) (k : Nat) (e : BlockadeError)
    (hfail : (execute_get_blockade env name h k).res = some (Except.error e)) :
    destroy_blockade env name h k =
      ⟨some (Except.error e), h, k + 1, [Request.getReq name]⟩ := by
  unfold destroy_blockade Outcome.andThen
  rw [execute_get_fail_eq env name h k e hfail]

/-- C10 (witness): with the transport down, destroy returns the HTTP
error after the GET alone and leaves the handler untouched. -/
theorem destroy_blockade_fetch_first_witness :
    destroy_blockade envT "b" h0 0 =
      ⟨some (Except.error BlockadeError.HttpError), h0, 1, [Request.getReq "b"]⟩ :=
  destroy_blockade_fetch_first envT "b" h0 0 BlockadeError.HttpError rfl

theorem prewarm_no_error (env : Nat → Response) :
    ∀ (names : List String) (h : BlockadeHandler) (k : Nat) (e : BlockadeError),
      (prewarm_loop env names h k).res ≠ some (Except.error e) := by
  intro names
  induction names with
  | nil => intro h k e; simp [prewarm_loop]
  | cons n rest ih =>
    intro h k e
    simp only [prewarm_loop]
    cases hres : (execute_get_blockade env n h k).res with
    | none => simp
    | some r =>
      simp only [Outcome.append]
      exact ih _ _ e

theorem prewarm_trace (env : Nat → Response) :
    ∀ (names : List String) (h : BlockadeHandler) (k : Nat),
      (prewarm_loop env names h k).res = some (Except.ok ()) →
      (prewarm_loop env names h k).trace = names.map Request.getReq := by
  intro names
  induction names with
  | nil => intro h k _; simp [prewarm_loop]
  | cons n rest ih =>
    intro h k hok
    simp only [prewarm_loop] at hok ⊢
    cases hres : (execute_get_blockade env n h k).res with
    | none => rw [hres] at hok; simp at hok
    | some r =>
      rw [hres] at hok
      simp only [Outcome.append] at hok ⊢
      rw [execute_get_trace, ih _ _ hok]
      simp

theorem prewarm_host (env : Nat → Response) :
    ∀ (names : List String) (h : BlockadeHandler) (k : Nat),
      (prewarm_loop env names h k).handler.host = h.host := by
  intro names
  induction names with
  | nil => intro h k; simp [prewarm_loop]
  | cons n rest ih =>
    intro h k
    simp only [prewarm_loop]
    cases hres : (execute_get_blockade env n h k).res with
    | none => simp only []; exact execute_get_host env n h k
    | some r =>
      simp only [Outcome.append]
      rw [ih _ _]
      exact execute_get_host env n h k

/-- C9: handler construction never fails: whatever the environment
answers, `new` returns the handler (its result is never an error value);
the host is recorded; a failing or undecodable list response leaves the
shadow empty without failing construction; and the pre-warm loop
discards every per-blockade fetch error, still issuing every fetch. -/
theorem new_handler_infallible (env : Nat → Response) (host : String) :
    (∀ e, (new_handler env host).res ≠ some (Except.error e)) ∧
    (new_handler env host).handler.host = host ∧
    (∀ t, env 0 = Response.httpErr t →
      new_handler env host = ⟨some (Except.ok ()), ⟨host, [], [], []⟩, 1, [Request.listReq]⟩) ∧
    (env 0 = Response.transport →
      new_handler env host = ⟨some (Except.ok ()), ⟨host, [], [], []⟩, 1, [Request.listReq]⟩) ∧
    (∀ body msg, env 0 = Response.ok body → decodeStringListMap body = DOut.err msg →
      new_handler env host = ⟨some (Except.ok ()), ⟨host, [], [], []⟩, 1, [Request.listReq]⟩) ∧
    (∀ names h k e, (prewarm_loop env names h k).res ≠ some (Except.error e)) ∧
    (∀ names h k, (prewarm_loop env names h k).res = some (Except.ok ()) →
      (prewarm_loop env names h k).trace = names.map Request.getReq) := by
  refine ⟨?_, ?_, ?_, ?_, ?_, fun names h k e => prewarm_no_error env names h k e,
    fun names h k hok => prewarm_trace env names h k hok⟩
  · intro e
    simp only [new_handler]
    cases hres : (execute_list_blockades env ⟨host, [], [], []⟩ 0).res with
    | none => simp
    | some r =>
      cases r with
      | error e2 => simp
      | ok u =>
        simp only [Outcome.append]
        exact prewarm_no_error env _ _ _ e
  · simp only [new_handler]
    cases hres : (execute_list_blockades env ⟨host, [], [], []⟩ 0).res with
    | none => simp only []; exact execute_list_host env _ 0
    | some r =>
      cases r with
      | error e2 => simp only []; exact execute_list_host env _ 0
      | ok u =>
        simp only [Outcome.append]
        rw [prewarm_host env _ _ _]
        exact execute_list_host env _ 0
  · intro t henv
    simp only [new_handler]
    unfold execute_list_blockades
    simp only [henv]
  · intro henv
    simp only [new_handler]
    unfold execute_list_blockades
    simp only [henv]
  · intro body msg henv hdec
    simp only [new_handler]
    unfold execute_list_blockades
    simp only [henv, hdec]

/-- C9 (witness): with the transport down, construction still succeeds,
returning the handler for the given host with an empty shadow. -/
theorem new_handler_infallible_witness :
    new_handler envT "h" = ⟨some (Except.ok ()), ⟨"h", [], [], []⟩, 1, [Request.listReq]⟩ :=
  (new_handler_infallible envT "h").2.2.2.1 rfl

/-- Fixture: a GET answered with an empty state, then 2xx on DELETE. -/
def envDel : Nat → Response := fun k =>
  match k with
  | 0 => Response.ok stateBody
  | _ => Response.ok (Json.str "")

/-- Fixture: a handler caching state and config for blockade "b". -/
def hB : BlockadeHandler := ⟨"H", [], [("b", ⟨[]⟩)], [("b", cfg0)]⟩

/-- C4 (counterexample): the claim says a shadow entry exists only after
a successful create or fetch and that after a successful destroy neither
cached State nor cached Config remains.  In the code, `execute_setup`
inserts the config into the shadow before sending the request — so the
Config entry exists even when the create fails at the transport — and
`execute_delete_blockade` removes only the State entry, so the Config
entry survives a successful destroy. -/
theorem shadow_lifecycle_claim_cex :
    (execute_setup envT "b" cfg0 h0 0).res = some (Except.error BlockadeError.HttpError) ∧
    lookupA (execute_setup envT "b" cfg0 h0 0).handler.config "b" = some cfg0 ∧
    (destroy_blockade envDel "b" hB 0).res = some (Except.ok ()) ∧
    lookupA (destroy_blockade envDel "b" hB 0).handler.state "b" = none ∧
    lookupA (destroy_blockade envDel "b" hB 0).handler.config "b" = some cfg0 :=
  ⟨rfl, rfl, rfl, rfl, rfl⟩

/-- C4 (amended): the cached State entry for a name is created exactly by
a successful fetch of that name (a failed fetch changes nothing) and
removed exactly by a successful delete (a failed delete changes
nothing); the cached Config entry, however, is written at the start of
every create attempt — successful or not — and is never removed, and no
other remote call touches either shadow map. -/
theorem shadow_lifecycle_amended (env : Nat → Response) (name : String) (cfg : BlockadeConfig)
    (h : BlockadeHandler) (k : Nat) :
    lookupA (execute_setup env name cfg h k).handler.config name = some cfg ∧
    (execute_setup env name cfg h k).handler.state = h.state ∧
    ((execute_get_blockade env name h k).res = some (Except.ok ()) →
      ∃ st, (execute_get_blockade env name h k).handler =
        { h with state := insertA h.state name st }) ∧
    (∀ e, (execute_get_blockade env name h k).res = some (Except.error e) →
      (execute_get_blockade env name h k).handler = h) ∧
    (execute_get_blockade env name h k).handler.config = h.config ∧
    ((execute_delete_blockade env name h k).res = some (Except.ok ()) →
      (execute_delete_blockade env name h k).handler = { h with state := removeA h.state name } ∧
      lookupA (execute_delete_blockade env name h k).handler.state name = none) ∧
    (∀ e, (execute_delete_blockade env name h k).res = some (Except.error e) →
      (execute_delete_blockade env name h k).handler = h) ∧
    (execute_delete_blockade env name h k).handler.config = h.config ∧
    (∀ cmd cs, (execute_command env name cmd cs h k).handler = h) ∧
    (∀ ns cs, (execute_net_command env name ns cs h k).handler = h) ∧
    (∀ ps, (execute_partition env name ps h k).handler = h) ∧
    (execute_restore_network env name h k).handler = h ∧
    (execute_list_blockades env h k).handler.state = h.state ∧
    (execute_list_blockades env h k).handler.config = h.config := by
  refine ⟨?_, ?_, ?_, ?_, execute_get_config env name h k, ?_, ?_,
    execute_delete_config env name h k, ?_, ?_, ?_, ?_,
    execute_list_state env h k, execute_list_config env h k⟩
  · rw [execute_setup_handler]
    exact lookupA_insertA_self h.config name cfg
  · rw [execute_setup_handler]
  · intro hok
    obtain ⟨st, heq⟩ := execute_get_ok_eq env name h k hok
    exact ⟨st, by rw [heq]⟩
  · intro e hfail
    rw [execute_get_fail_eq env name h k e hfail]
  · intro hok
    rw [execute_delete_ok_eq env name h k hok]
    exact ⟨rfl, lookupA_removeA_self h.state name⟩
  · intro e hfail
    rw [execute_delete_fail_eq env name h k e hfail]
  · intro cmd cs
    unfold execute_command
    cases env k <;> rfl
  · intro ns cs
    unfold execute_net_command
    cases env k <;> rfl
  · intro ps
    unfold execute_partition
    cases env k <;> rfl
  · unfold execute_restore_network
    cases env k <;> rfl

/-- C4 (amended, witness): a concrete successful fetch of "b" creates
exactly the state entry, and a failed fetch changes nothing. -/
theorem shadow_lifecycle_amended_witness :
    (∃ st, (execute_get_blockade envStEmpty "b" h0 0).handler =
      { h0 with state := insertA h0.state "b" st }) ∧
    (execute_get_blockade envT "b" h0 0).handler = h0 :=
  ⟨(shadow_lifecycle_amended envStEmpty "b" cfg0 h0 0).2.2.1 rfl,
   (shadow_lifecycle_amended envT "b" cfg0 h0 0).2.2.2.1 BlockadeError.HttpError rfl⟩

theorem execute_get_none_eq (env : Nat → Response) (name : String)
    (h : BlockadeHandler) (k : Nat)
    (hnone : (execute_get_blockade env name h k).res = none) :
    execute_get_blockade env name h k = ⟨none, h, k + 1, [Request.getReq name]⟩ := by
  unfold execute_get_blockade at hnone ⊢
  repeat' split at hnone
  all_goals simp_all

theorem refresh_each_untouched (env : Nat → Response) :
    ∀ (names : List String) (h : BlockadeHandler) (k : Nat) (nm : String), nm ∉ names →
      lookupA (refresh_each env names h k).handler.state nm = lookupA h.state nm := by
  intro names
  induction names with
  | nil => intro h k nm _; rfl
  | cons n rest ih =>
    intro h k nm hnm
    have hne : nm ≠ n := fun hc => hnm (hc ▸ List.mem_cons_self n rest)
    have hrest : nm ∉ rest := fun hc => hnm (List.mem_cons_of_mem n hc)
    simp only [refresh_each, Outcome.andThen]
    cases hres : (execute_get_blockade env n h k).res with
    | none =>
      rw [execute_get_none_eq env n h k hres]
    | some r =>
      cases r with
      | error e =>
        rw [execute_get_fail_eq env n h k e hres]
      | ok u =>
        cases u
        obtain ⟨st, heq⟩ := execute_get_ok_eq env n h k hres
        rw [heq]
        simp only []
        rw [ih _ _ nm hrest]
        exact lookupA_insertA_ne h.state st hne

theorem refresh_each_append_fail (env : Nat → Response) (bad : String) (rest : List String)
    (e : BlockadeError) :
    ∀ (done : List String) (h : BlockadeHandler) (k : Nat),
      (refresh_each env done h k).res = some (Except.ok ()) →
      (execute_get_blockade env bad (refresh_each env done h k).handler
        (refresh_each env done h k).k).res = some (Except.error e) →
      refresh_each env (done ++ bad :: rest) h k =
        ⟨some (Except.error e), (refresh_each env done h k).handler,
          (refresh_each env done h k).k + 1,
          done.map Request.getReq ++ [Request.getReq bad]⟩ := by
  intro done
  induction done with
  | nil =>
    intro h k hdone hbad
    have hfail := execute_get_fail_eq env bad h k e hbad
    show refresh_each env (bad :: rest) h k = _
    simp only [refresh_each, Outcome.andThen, hfail]
    simp
  | cons n done' ih =>
    intro h k hdone hbad
    simp only [refresh_each, Outcome.andThen] at hdone hbad ⊢
    cases hres : (execute_get_blockade env n h k).res with
    | none => rw [hres] at hdone; simp at hdone
    | some r =>
      cases r with
      | error e2 => rw [hres] at hdone; simp at hdone
      | ok u =>
        cases u
        obtain ⟨st, heq⟩ := execute_get_ok_eq env n h k hres
        rw [heq] at hdone hbad ⊢
        simp only [List.append_eq] at hdone hbad ⊢
        rw [ih _ _ hdone hbad]
        simp

/-- C8: `fetch_state` is fail-fast.  After a successful list, if
refreshing the names before `bad` succeeds and the refresh of `bad`
fails with `e`, then `fetch_state` returns `e`, its request trace is the
list request followed by one GET per refreshed name and the failing GET
— nothing for the names after `bad` — the entries refreshed before the
failure keep their refreshed values (the final handler is the one after
those refreshes), and every name not yet refreshed keeps its stale
cached state. -/
theorem fetch_state_fail_fast (env : Nat → Response) (h : BlockadeHandler) (k : Nat)
    (done : List String) (bad : String) (rest : List String) (e : BlockadeError)
    (L D : Outcome Unit)
    (hL : execute_list_blockades env h k = L)
    (hLok : L.res = some (Except.ok ()))
    (hblocks : L.handler.blockades = done ++ bad :: rest)
    (hD : refresh_each env done L.handler L.k = D)
    (hdone : D.res = some (Except.ok ()))
    (hbad : (execute_get_blockade env bad D.handler D.k).res = some (Except.error e)) :
    fetch_state env h k =
      ⟨some (Except.error e), D.handler, D.k + 1,
        Request.listReq :: (done.map Request.getReq ++ [Request.getReq bad])⟩ ∧
    ∀ nm, nm ∉ done → lookupA D.handler.state nm = lookupA L.handler.state nm := by
  subst hL
  subst hD
  constructor
  · unfold fetch_state Outcome.andThen
    rw [hLok]
    simp only []
    rw [hblocks, refresh_each_append_fail env bad rest e done _ _ hdone hbad,
      execute_list_trace]
    simp
  · intro nm hnm
    exact refresh_each_untouched env done _ _ nm hnm

/-- Fixture: list reports b1 and b2; b1 refreshes fine; b2 fails. -/
def envC8 : Nat → Response := fun k =>
  match k with
  | 0 => Response.ok (Json.obj [("blockades", Json.arr [Json.str "b1", Json.str "b2"])])
  | 1 => Response.ok stateBody
  | _ => Response.httpErr "down"

/-- C8 (witness): the concrete run aborts at b2, returning the server
error with b1 refreshed and no request issued past b2. -/
theorem fetch_state_fail_fast_witness :
    fetch_state envC8 h0 0 =
      ⟨some (Except.error (BlockadeError.ServerError "down")),
        ⟨"H", ["b1", "b2"], [("b1", ⟨[]⟩)], []⟩, 3,
        [Request.listReq, Request.getReq "b1", Request.getReq "b2"]⟩ :=
  (fetch_state_fail_fast envC8 h0 0 ["b1"] "b2" [] (BlockadeError.ServerError "down")
      ⟨some (Except.ok ()), ⟨"H", ["b1", "b2"], [], []⟩, 1, [Request.listReq]⟩
      ⟨some (Except.ok ()), ⟨"H", ["b1", "b2"], [("b1", ⟨[]⟩)], []⟩, 2, [Request.getReq "b1"]⟩
      rfl rfl rfl rfl rfl rfl).1

/-- Fixture: create fails with a non-conflict server error, every later
request succeeds with an empty state body. -/
def envBoom : Nat → Response := fun k =>
  match k with
  | 0 => Response.httpErr "boom"
  | _ => Response.ok stateBody

/-- C1 (counterexample): the claim says that with restart=false any
error from the create attempt propagates to the caller unchanged.  In
the code the `match` drops the error value: the create fails with
`ServerError "boom"`, yet `start_blockade` goes on to fetch the state
and returns Ok. -/
theorem start_blockade_swallow_cex :
    (execute_setup envBoom "b" cfg0 h0 0).res =
      some (Except.error (BlockadeError.ServerError "boom")) ∧
    (start_blockade envBoom "b" cfg0 false h0 0).res = some (Except.ok ()) ∧
    (start_blockade envBoom "b" cfg0 false h0 0).trace =
      [Request.createReq "b" cfg0, Request.getReq "b"] :=
  ⟨rfl, rfl, rfl⟩

/-- C1 (amended): when the create attempt fails with `ServerError` whose
body is exactly "Blockade name already exists" and restart is set,
`start_blockade` performs exactly one destroy (one GET plus one DELETE)
followed by one retried create whose outcome — success or failure — is
returned directly, with no further attempt.  When restart is unset, an
error from the create attempt is discarded, not propagated: no destroy
is attempted and the call falls through to a state fetch, whose outcome
is what the caller sees. -/
theorem start_blockade_amended (env : Nat → Response) (name : String) (cfg : BlockadeConfig)
    (h : BlockadeHandler) (k : Nat) :
    (∀ O D R : Outcome Unit,
      execute_setup env name cfg h k = O →
      O.res = some (Except.error (BlockadeError.ServerError "Blockade name already exists")) →
      destroy_blockade env name O.handler O.k = D →
      D.res = some (Except.ok ()) →
      execute_setup env name cfg D.handler D.k = R →
      start_blockade env name cfg true h k =
        ⟨R.res, R.handler, R.k,
          [Request.createReq name cfg, Request.getReq name, Request.deleteReq name,
            Request.createReq name cfg]⟩) ∧
    (∀ O : Outcome Unit, ∀ e : BlockadeError,
      execute_setup env name cfg h k = O →
      O.res = some (Except.error e) →
      start_blockade env name cfg false h k =
        ⟨(execute_get_blockade env name O.handler O.k).res,
         (execute_get_blockade env name O.handler O.k).handler,
         (execute_get_blockade env name O.handler O.k).k,
         [Request.createReq name cfg, Request.getReq name]⟩) := by
  constructor
  · intro O D R hO hores hD hdres hR
    subst hO
    subst hD
    subst hR
    simp only [start_blockade]
    rw [hores]
    simp only []
    rw [if_pos trivial]
    unfold Outcome.andThen
    rw [hdres]
    simp only []
    unfold Outcome.append
    rw [execute_setup_trace, execute_setup_trace,
      destroy_ok_trace env name _ _ hdres]
    simp
  · intro O e hO hores
    subst hO
    simp only [start_blockade]
    rw [hores]
    cases e <;>
      (simp only []
       unfold Outcome.append
       rw [execute_setup_trace, execute_get_trace]
       simp)

/-- Fixture: create conflicts, destroy succeeds (GET then DELETE), the
retried create fails with a fresh server error. -/
def envW1 : Nat → Response := fun k =>
  match k with
  | 0 => Response.httpErr "Blockade name already exists"
  | 1 => Response.ok stateBody
  | 2 => Response.ok (Json.str "")
  | _ => Response.httpErr "second failure"

/-- C1 (amended, witness): the conflict path runs create, destroy (GET,
DELETE), one retried create, and the retry's failure is returned. -/
theorem start_blockade_amended_witness :
    start_blockade envW1 "b" cfg0 true h0 0 =
      ⟨some (Except.error (BlockadeError.ServerError "second failure")),
        ⟨"H", [], [], [("b", cfg0)]⟩, 4,
        [Request.createReq "b" cfg0, Request.getReq "b", Request.deleteReq "b",
          Request.createReq "b" cfg0]⟩ :=
  (start_blockade_amended envW1 "b" cfg0 h0 0).1 _ _ _ rfl rfl rfl rfl rfl

end BlockadeRs
